import Mathlib

/-!
Verification of the matrix-factorization tutorial notebook
(`python/tutorials/matrix_factorization.ipynb`).

The notebook is Python 2 code.  We embed its own functions shallowly:

* a file is a `List String` of its lines (the trailing newline of each
  line is immaterial because the code strips every line first);
* Python numbers are idealized exactly: `int` becomes `Int`, `float`
  becomes `ℚ` for data values (the data file holds short decimals) and
  `ℝ` where `math.sqrt` is involved;
* a Python function that can raise becomes a function into `Except PyErr`;
* `random.shuffle` is the Fisher-Yates loop of CPython, parameterized by
  the stream of random draws;
* the mxnet symbolic API calls made by the notebook build an explicit
  `MxSymbol` expression tree, the faithful image of the call graph.
-/

/-- Python exception kinds raised by the embedded code. -/
inductive PyErr where
  | ValueError
  | IndexError
  | ZeroDivisionError
deriving DecidableEq, Repr

/-! ### Python string primitives used by the notebook -/

/-- Whitespace in the sense of Python `str.strip`. -/
def isPySpace (c : Char) : Bool :=
  c = ' ' || c = '\t' || c = '\n' || c = '\r' || c = '\x0b' || c = '\x0c'

/-- Python `line.strip()`: drop leading and trailing whitespace. -/
def pyStrip (s : String) : String :=
  String.mk (((s.data.dropWhile isPySpace).reverse.dropWhile isPySpace).reverse)

/-- Python `s.split(sep)` for a one-character separator (the notebook
only ever splits on `'\t'`, and `float` parsing splits on `'.'`):
consecutive separators produce empty fields and the empty string yields
one empty field. -/
def splitOnChar (sep : Char) : List Char → List (List Char)
  | [] => [[]]
  | c :: rest =>
    match splitOnChar sep rest with
    | [] => [[c]]
    | h :: t => if c = sep then [] :: h :: t else (c :: h) :: t

/-- Value of a nonempty all-digit character list, `none` otherwise. -/
def digitsVal? (ds : List Char) : Option Nat :=
  if ds ≠ [] ∧ ds.all Char.isDigit then
    some (ds.foldl (fun a c => 10 * a + (c.toNat - 48)) 0)
  else none

/-- Digit value where the empty list counts as 0 (for `float` parts). -/
def digitsVal0 (ds : List Char) : Nat :=
  ds.foldl (fun a c => 10 * a + (c.toNat - 48)) 0

/-- Split a stripped literal into sign and body. -/
def pySign (cs : List Char) : Int × List Char :=
  match cs with
  | '-' :: r => (-1, r)
  | '+' :: r => (1, r)
  | r => (1, r)

/-- Python 2 `int(s)`: optional surrounding whitespace, optional sign,
then a nonempty digit string; anything else raises `ValueError`. -/
def pyInt? (s : String) : Option Int :=
  let t := pyStrip s
  let (sg, body) := pySign t.data
  (digitsVal? body).map (fun n => sg * (n : Int))

/-- Python `float(s)` restricted to plain decimal literals (optional sign,
digits with an optional fractional part), the forms occurring in the
MovieLens rating files; other accepted forms (exponents, `inf`, `nan`)
are outside the data this notebook reads and are modelled as failures. -/
def pyFloat? (s : String) : Option ℚ :=
  let t := pyStrip s
  let (sg, body) := pySign t.data
  match splitOnChar '.' body with
  | [d] => (digitsVal? d).map (fun n => (sg : ℚ) * n)
  | [d, f] =>
    if d = [] ∧ f = [] then none
    else if d.all Char.isDigit ∧ f.all Char.isDigit then
      some ((sg : ℚ) * ((digitsVal0 d : ℚ) + (digitsVal0 f : ℚ) / 10 ^ f.length))
    else none
  | _ => none

/-- `line.strip().split('\t')`, the tokenisation used by the loaders. -/
def lineTokens (line : String) : List String :=
  (splitOnChar '\t' (pyStrip line).data).map String.mk

/-! ### The `Batch` container -/

/-- The notebook's `Batch` class.  An `mx.nd.array` built from a Python
list of numbers is represented by the list itself (as rationals). -/
structure Batch where
  data_names : List String
  data : List (List ℚ)
  label_names : List String
  label : List (List ℚ)
deriving DecidableEq, Repr

/-- `Batch.provide_data`: names zipped with array shapes. -/
def Batch.provide_data (b : Batch) : List (String × List Nat) :=
  (b.data_names.zip b.data).map (fun p => (p.1, [p.2.length]))

/-- `Batch.provide_label`. -/
def Batch.provide_label (b : Batch) : List (String × List Nat) :=
  (b.label_names.zip b.label).map (fun p => (p.1, [p.2.length]))

/-! ### `DataIter` -/

/-- Name of the user input. -/
def userName : String := "user"

/-- Name of the item input. -/
def itemName : String := "item"

/-- Name of the score label. -/
def scoreName : String := "score"

/-- The loading loop of `DataIter.__init__`: for each line, tokenize;
lines with a field count other than 4 are skipped by `continue`; on a
4-field line, `int(tks[0])`, `int(tks[1])` and `float(tks[2])` are
evaluated and a failure of any of them raises `ValueError`; `tks[3]`
(the timestamp) is never read. -/
def loadData : List String → Except PyErr (List (Int × Int × ℚ))
  | [] => .ok []
  | line :: rest =>
    let tks := lineTokens line
    if tks.length ≠ 4 then loadData rest
    else
      match pyInt? (tks.getD 0 ""), pyInt? (tks.getD 1 ""), pyFloat? (tks.getD 2 "") with
      | some u, some i, some r => (loadData rest).map (fun l => (u, i, r) :: l)
      | _, _, _ => .error .ValueError

/-- The state of a `DataIter` object after `__init__`. -/
structure DataIter where
  batch_size : Nat
  data : List (Int × Int × ℚ)
  provide_data : List (String × List Nat)
  provide_label : List (String × List Nat)
deriving DecidableEq, Repr

/-- `DataIter.__init__(fname, batch_size)` on the lines of the file. -/
def DataIter.init (lines : List String) (bs : Nat) : Except PyErr DataIter :=
  (loadData lines).map (fun d =>
    { batch_size := bs
      data := d
      provide_data := [(userName, [bs]), (itemName, [bs])]
      provide_label := [(scoreName, [bs])] })

/-- The `k`-th batch yielded by `DataIter.__iter__`: positions
`k*batch_size + i` for `i < batch_size`, split into users, items and
scores, wrapped in a `Batch` (ids become floats via `mx.nd.array`). -/
def DataIter.nthBatch (st : DataIter) (k : Nat) : Batch :=
  let idx := List.range st.batch_size
  let users := idx.map (fun i => ((st.data.getD (k * st.batch_size + i) (0, 0, 0)).1 : ℚ))
  let items := idx.map (fun i => ((st.data.getD (k * st.batch_size + i) (0, 0, 0)).2.1 : ℚ))
  let scores := idx.map (fun i => (st.data.getD (k * st.batch_size + i) (0, 0, 0)).2.2)
  { data_names := [userName, itemName]
    data := [users, items]
    label_names := [scoreName]
    label := [scores] }

/-- One pass of `DataIter.__iter__`: `range(len(self.data) / self.batch_size)`
batches (Python 2 `/` is floor division on ints). -/
def DataIter.iterBatches (st : DataIter) : List Batch :=
  (List.range (st.data.length / st.batch_size)).map st.nthBatch

/-! ### `max_id` -/

/-- The accumulator loop of `max_id`: on each 4-field line the first two
fields are parsed as ints (a failure raises) and folded with `max`
starting from `mu = 0`, `mi = 0`. -/
def maxIdGo : List String → Int → Int → Except PyErr (Int × Int)
  | [], mu, mi => .ok (mu + 1, mi + 1)
  | line :: rest, mu, mi =>
    let tks := lineTokens line
    if tks.length ≠ 4 then maxIdGo rest mu mi
    else
      match pyInt? (tks.getD 0 ""), pyInt? (tks.getD 1 "") with
      | some u, some i => maxIdGo rest (max mu u) (max mi i)
      | _, _ => .error .ValueError

/-- `max_id(fname)` on the lines of the file. -/
def max_id (lines : List String) : Except PyErr (Int × Int) :=
  maxIdGo lines 0 0

/-! ### `RMSE` -/

/-- The loop of `RMSE`: for `i in range(len(label))`, accumulate
`(label[i] - pred[i])^2` and count; reading past the end of `pred`
raises `IndexError`.  Returns `(ret, n)`. -/
def rmseLoop : List ℚ → List ℚ → Except PyErr (ℚ × ℚ)
  | [], _ => .ok (0, 0)
  | _ :: _, [] => .error .IndexError
  | l :: ls, p :: ps =>
    (rmseLoop ls ps).map (fun rn => (rn.1 + (l - p) * (l - p), rn.2 + 1))

/-- `RMSE(label, pred)`: `pred` is flattened, the loop runs over the
labels, and `math.sqrt(ret / n)` is returned; `ret / n` with `n = 0.0`
raises `ZeroDivisionError`. -/
noncomputable def RMSE (label : List ℚ) (pred : List (List ℚ)) : Except PyErr ℝ :=
  match rmseLoop label pred.flatten with
  | .error e => .error e
  | .ok rn => if rn.2 = 0 then .error .ZeroDivisionError else .ok (Real.sqrt ((rn.1 / rn.2 : ℚ) : ℝ))

/-! ### `random.shuffle` and `DataIter.reset` -/

/-- Exchange the entries at positions `i` and `j` (identity when either
index is out of range), the primitive step of CPython Fisher-Yates. -/
def listSwap (l : List α) (i j : Nat) : List α :=
  match l[i]?, l[j]? with
  | some a, some b => (l.set i b).set j a
  | _, _ => l

/-- The loop of CPython `random.shuffle(x)`:
`for i in reversed(range(1, len(x)))`, draw `j` uniformly in `[0, i]`
and swap `x[i]` with `x[j]`.  `rand i` supplies the draw for index `i`
(reduced mod `i + 1` so any stream is admissible). -/
def shuffleGo (rand : Nat → Nat) : Nat → List α → List α
  | 0, l => l
  | i + 1, l => shuffleGo rand i (listSwap l (i + 1) (rand (i + 1) % (i + 2)))

/-- `random.shuffle` on a list, driven by the draw stream `rand`. -/
def pyShuffle (rand : Nat → Nat) (l : List α) : List α :=
  shuffleGo rand (l.length - 1) l

/-- `DataIter.reset`: `random.shuffle(self.data)` and nothing else. -/
def DataIter.reset (rand : Nat → Nat) (st : DataIter) : DataIter :=
  { st with data := pyShuffle rand st.data }

/-! ### The symbolic networks -/

/-- The mxnet symbol expressions built by the notebook: each constructor
records one `mx.symbol` call with the arguments the notebook passes. -/
inductive MxSymbol where
  | Variable (name : String)
  | Embedding (data : MxSymbol) (input_dim output_dim : Nat)
  | Activation (data : MxSymbol) (act_type : String)
  | FullyConnected (data : MxSymbol) (num_hidden : Nat)
  | Dropout (data : MxSymbol) (p : ℚ)
  | mul (a b : MxSymbol)
  | sum_axis (data : MxSymbol) (axis : Nat)
  | Flatten (data : MxSymbol)
  | LinearRegressionOutput (data label : MxSymbol)
deriving DecidableEq, Repr

/-- `max_user`, as computed in the notebook from `u.data` (the executed
output records `max_id('./ml-100k/u.data') = (944, 1683)`). -/
def max_user : Nat := 944

/-- `max_item`, from the same recorded output. -/
def max_item : Nat := 1683

/-- The relu activation name. -/
def reluName : String := "relu"

/-- `plain_net(k)`: embed both ids into `k` dimensions, multiply
elementwise, sum over axis 1, flatten, linear-regression loss. -/
def plain_net (k : Nat) : MxSymbol :=
  let user := MxSymbol.Variable userName
  let item := MxSymbol.Variable itemName
  let score := MxSymbol.Variable scoreName
  let user := MxSymbol.Embedding user max_user k
  let item := MxSymbol.Embedding item max_item k
  let pred := MxSymbol.mul user item
  let pred := MxSymbol.sum_axis pred 1
  let pred := MxSymbol.Flatten pred
  MxSymbol.LinearRegressionOutput pred score

/-- `get_one_layer_mlp(hidden, k)`: embeddings followed by relu and a
fully connected layer on each side, then the same dot-product head. -/
def get_one_layer_mlp (hidden k : Nat) : MxSymbol :=
  let user := MxSymbol.Variable userName
  let item := MxSymbol.Variable itemName
  let score := MxSymbol.Variable scoreName
  let user := MxSymbol.Embedding user max_user k
  let user := MxSymbol.Activation user reluName
  let user := MxSymbol.FullyConnected user hidden
  let item := MxSymbol.Embedding item max_item k
  let item := MxSymbol.Activation item reluName
  let item := MxSymbol.FullyConnected item hidden
  let pred := MxSymbol.mul user item
  let pred := MxSymbol.sum_axis pred 1
  let pred := MxSymbol.Flatten pred
  MxSymbol.LinearRegressionOutput pred score

/-- `get_one_layer_dropout_mlp(hidden, k)`: the one-layer mlp with a
`Dropout(p = 0.5)` after each fully connected layer. -/
def get_one_layer_dropout_mlp (hidden k : Nat) : MxSymbol :=
  let user := MxSymbol.Variable userName
  let item := MxSymbol.Variable itemName
  let score := MxSymbol.Variable scoreName
  let user := MxSymbol.Embedding user max_user k
  let user := MxSymbol.Activation user reluName
  let user := MxSymbol.FullyConnected user hidden
  let user := MxSymbol.Dropout user (1 / 2)
  let item := MxSymbol.Embedding item max_item k
  let item := MxSymbol.Activation item reluName
  let item := MxSymbol.FullyConnected item hidden
  let item := MxSymbol.Dropout item (1 / 2)
  let pred := MxSymbol.mul user item
  let pred := MxSymbol.sum_axis pred 1
  let pred := MxSymbol.Flatten pred
  MxSymbol.LinearRegressionOutput pred score

/-- The network-definition functions the notebook's code defines, in
source order, each normalised to take `(hidden, k)`. -/
def networkBuilders : List (Nat → Nat → MxSymbol) :=
  [fun _ k => plain_net k, get_one_layer_mlp, get_one_layer_dropout_mlp]

/-- Erase every `Dropout` node of a symbol graph. -/
def dropoutErase : MxSymbol → MxSymbol
  | .Variable n => .Variable n
  | .Embedding d i o => .Embedding (dropoutErase d) i o
  | .Activation d t => .Activation (dropoutErase d) t
  | .FullyConnected d h => .FullyConnected (dropoutErase d) h
  | .Dropout d _ => dropoutErase d
  | .mul a b => .mul (dropoutErase a) (dropoutErase b)
  | .sum_axis d a => .sum_axis (dropoutErase d) a
  | .Flatten d => .Flatten (dropoutErase d)
  | .LinearRegressionOutput d l => .LinearRegressionOutput (dropoutErase d) (dropoutErase l)

/-- Erase every hidden layer (`Activation` and `FullyConnected` nodes)
of a symbol graph. -/
def hiddenErase : MxSymbol → MxSymbol
  | .Variable n => .Variable n
  | .Embedding d i o => .Embedding (hiddenErase d) i o
  | .Activation d _ => hiddenErase d
  | .FullyConnected d _ => hiddenErase d
  | .Dropout d p => .Dropout (hiddenErase d) p
  | .mul a b => .mul (hiddenErase a) (hiddenErase b)
  | .sum_axis d a => .sum_axis (hiddenErase d) a
  | .Flatten d => .Flatten (hiddenErase d)
  | .LinearRegressionOutput d l => .LinearRegressionOutput (hiddenErase d) (hiddenErase l)

/-! ### Forward semantics of the operators used by `plain_net`

Modelled from the spec: the framework's execution engine is outside this
repository; the spec describes the prediction as "the dot product of the
two vectors", i.e. "the inner product, which is elementwise product and
then sum" per the source comment.  We give one sample's forward value of
the operators `plain_net` uses: a variable holds a scalar, `Embedding`
looks up the row of its table at the scalar input, `mul` is elementwise,
`sum_axis` reduces the vector to a scalar, `Flatten` is the identity on
one sample, and `LinearRegressionOutput` outputs its data at inference.
Operators whose parameters the graph does not carry (`FullyConnected`,
`Dropout`, non-relu activations aside) evaluate to `none`. -/
def evalSym (var : String → ℚ) (emb : MxSymbol → ℚ → List ℚ) : MxSymbol → Option (List ℚ)
  | .Variable n => some [var n]
  | .Embedding d _ _ =>
    (evalSym var emb d).bind (fun xs =>
      match xs with
      | [x] => some (emb d x)
      | _ => none)
  | .Activation d t =>
    if t = reluName then (evalSym var emb d).map (List.map (fun x => max x 0)) else none
  | .FullyConnected _ _ => none
  | .Dropout _ _ => none
  | .mul a b =>
    (evalSym var emb a).bind (fun xs =>
      (evalSym var emb b).bind (fun ys =>
        if xs.length = ys.length then some (List.zipWith (fun x y => x * y) xs ys) else none))
  | .sum_axis d _ => (evalSym var emb d).map (fun xs => [xs.sum])
  | .Flatten d => evalSym var emb d
  | .LinearRegressionOutput d _ => evalSym var emb d

/-! ### `train` and `get_data` -/

/-- `get_data(batch_size)`: one `DataIter` over `u1.base` and one over
`u1.test`, both with the given batch size. -/
def get_data (u1base u1test : List String) (bs : Nat) :
    Except PyErr (DataIter × DataIter) := do
  let tr ← DataIter.init u1base bs
  let te ← DataIter.init u1test bs
  pure (tr, te)

/-- Everything `train` assembles before handing off to `model.fit`. -/
structure TrainSetup where
  symbol : MxSymbol
  num_epoch : Nat
  learning_rate : ℚ
  wd : ℚ
  momentum : ℚ
  trainIter : DataIter
  testIter : DataIter
  speedometer_frequent : Nat
deriving DecidableEq, Repr

/-- `train(network, batch_size, num_epoch, learning_rate)`: builds the
`FeedForward` model (wd 0.0001, momentum 0.9), rebinds `batch_size = 64`,
fetches the data iterators with that value, and calls `fit` with a
`Speedometer(batch_size, 20000/batch_size)` callback (Python 2 integer
division). -/
def train (u1base u1test : List String) (network : MxSymbol)
    ( batch_size num_epoch : Nat) (learning_rate : ℚ) : Except PyErr TrainSetup :=
  let _ := batch_size
  let batch_size := 64
  (get_data u1base u1test batch_size).map (fun p =>
    { symbol := network
      num_epoch := num_epoch
      learning_rate := learning_rate
      wd := 1 / 10000
      momentum := 9 / 10
      trainIter := p.1
      testIter := p.2
      speedometer_frequent := 20000 / batch_size })

/-! ### Specification-side descriptions (from the spec and claim text) -/

/-- The record a line contributes according to the spec: lines splitting
on tab into exactly four fields yield `(int field0, int field1,
float field2)`, the timestamp is discarded, other lines yield nothing. -/
def lineRecord? (line : String) : Option (Int × Int × ℚ) :=
  match lineTokens line with
  | [a, b, c, _] => do
    let u ← pyInt? a
    let i ← pyInt? b
    let r ← pyFloat? c
    pure (u, i, r)
  | _ => none

/-- The user ids the claim about `max_id` ranges over: first field of
every 4-field line. -/
def userIds (lines : List String) : List Int :=
  lines.filterMap (fun l =>
    let tks := lineTokens l
    if tks.length = 4 then pyInt? (tks.getD 0 "") else none)

/-- The item ids: second field of every 4-field line. -/
def itemIds (lines : List String) : List Int :=
  lines.filterMap (fun l =>
    let tks := lineTokens l
    if tks.length = 4 then pyInt? (tks.getD 1 "") else none)

/-- A line is well formed when, if it has exactly four tab-fields, its
first two fields parse as ints and its third as a float. -/
def WellFormedLine (line : String) : Prop :=
  (lineTokens line).length = 4 →
    (pyInt? ((lineTokens line).getD 0 "")).isSome ∧
    (pyInt? ((lineTokens line).getD 1 "")).isSome ∧
    (pyFloat? ((lineTokens line).getD 2 "")).isSome

/-! ## Claims -/

/-- C6, counterexample: the notebook's code defines three
network-definition functions (`plain_net`, `get_one_layer_mlp`,
`get_one_layer_dropout_mlp`), not four. -/
theorem networkBuilders_not_four :
    networkBuilders.length = 3 ∧ networkBuilders.length ≠ 4 := by
  constructor
  · rfl
  · decide

/-- C6 (amended): the notebook's own code defines three near-identical
network-definition functions that differ only in layer count and
dropout: erasing the `Dropout` nodes of `get_one_layer_dropout_mlp`
yields `get_one_layer_mlp`, and further erasing the hidden
(`Activation`/`FullyConnected`) layers of either mlp yields
`plain_net`. -/
theorem networkBuilders_three_near_identical :
    networkBuilders.length = 3 ∧
    (∀ hidden k, dropoutErase (get_one_layer_dropout_mlp hidden k) = get_one_layer_mlp hidden k) ∧
    (∀ hidden k, hiddenErase (get_one_layer_mlp hidden k) = plain_net k) ∧
    (∀ hidden k, hiddenErase (dropoutErase (get_one_layer_dropout_mlp hidden k)) = plain_net k) := by
  refine ⟨rfl, fun hidden k => rfl, fun hidden k => rfl, fun hidden k => rfl⟩

/-- C7: `plain_net k` wires the elementwise product of the two `k`-dim
embeddings through `sum_axis` over axis 1 (the embedding axis), then
`Flatten`, into a `LinearRegressionOutput` against the `score` label;
and its forward value on one sample is the dot product of the user
embedding row and the item embedding row. -/
theorem plain_net_is_dot_product (k : Nat) (uT iT : ℚ → List ℚ) (var : String → ℚ)
    (hu : (uT (var userName)).length = k) (hi : (iT (var itemName)).length = k) :
    plain_net k =
      MxSymbol.LinearRegressionOutput
        (MxSymbol.Flatten
          (MxSymbol.sum_axis
            (MxSymbol.mul
              (MxSymbol.Embedding (MxSymbol.Variable userName) max_user k)
              (MxSymbol.Embedding (MxSymbol.Variable itemName) max_item k)) 1))
        (MxSymbol.Variable scoreName) ∧
    evalSym var
        (fun d x => if d = MxSymbol.Variable userName then uT x else iT x)
        (plain_net k) =
      some [(List.zipWith (fun a b => a * b) (uT (var userName)) (iT (var itemName))).sum] := by
  constructor
  · rfl
  · have hne : (MxSymbol.Variable itemName = MxSymbol.Variable userName) = False := by
      simp [userName, itemName]
    simp [plain_net, evalSym, hne, hu, hi]

/-- C7 witness at `k = 2` with concrete embedding tables. -/
theorem plain_net_is_dot_product_witness :
    plain_net 2 =
      MxSymbol.LinearRegressionOutput
        (MxSymbol.Flatten
          (MxSymbol.sum_axis
            (MxSymbol.mul
              (MxSymbol.Embedding (MxSymbol.Variable userName) max_user 2)
              (MxSymbol.Embedding (MxSymbol.Variable itemName) max_item 2)) 1))
        (MxSymbol.Variable scoreName) ∧
    evalSym (fun _ => 0)
        (fun d x => if d = MxSymbol.Variable userName then (fun _ => [1, 2]) x else (fun _ => [3, 4]) x)
        (plain_net 2) =
      some [(List.zipWith (fun a b => a * b) ((fun _ => [1, 2]) ((fun _ => (0 : ℚ)) userName))
              ((fun _ => [3, 4]) ((fun _ => (0 : ℚ)) itemName))).sum] :=
  plain_net_is_dot_product 2 (fun _ => [1, 2]) (fun _ => [3, 4]) (fun _ => 0) rfl rfl

/-- `DataIter.init` stores the requested batch size unchanged. -/
theorem DataIter.init_batch_size {lines : List String} {bs : Nat} {st : DataIter}
    (h : DataIter.init lines bs = .ok st) : st.batch_size = bs := by
  unfold DataIter.init at h
  cases hld : loadData lines with
  | ok d => rw [hld] at h; cases h; rfl
  | error e => rw [hld] at h; cases h

/-- C8: `train` ignores its `batch_size` argument: two calls differing
only in `batch_size` produce identical setups, and in any successful
setup both data iterators carry batch size 64, because `train` rebinds
`batch_size = 64` before calling `get_data`. -/
theorem train_ignores_batch_size (u1base u1test : List String) (net : MxSymbol)
    (b1 b2 e : Nat) (lr : ℚ) (ts : TrainSetup)
    (h : train u1base u1test net b1 e lr = .ok ts) :
    train u1base u1test net b1 e lr = train u1base u1test net b2 e lr ∧
    ts.trainIter.batch_size = 64 ∧ ts.testIter.batch_size = 64 := by
  refine ⟨rfl, ?_⟩
  unfold train at h
  dsimp only at h
  cases hgd : get_data u1base u1test 64 with
  | ok p =>
    rw [hgd] at h
    cases h
    unfold get_data at hgd
    cases htr : DataIter.init u1base 64 with
    | ok tr =>
      rw [htr] at hgd
      cases hte : DataIter.init u1test 64 with
      | ok te =>
        rw [hte] at hgd
        cases hgd
        exact ⟨DataIter.init_batch_size htr, DataIter.init_batch_size hte⟩
      | error e2 => rw [hte] at hgd; cases hgd
    | error e2 => rw [htr] at hgd; cases hgd
  | error e2 => rw [hgd] at h; cases h

/-- C8 witness: concrete empty files, batch sizes 5 and 7. -/
theorem train_ignores_batch_size_witness :
    train [] [] (plain_net 1) 5 1 0 = train [] [] (plain_net 1) 7 1 0 ∧
    ({ symbol := plain_net 1
       num_epoch := 1
       learning_rate := 0
       wd := 1 / 10000
       momentum := 9 / 10
       trainIter :=
         { batch_size := 64, data := []
           provide_data := [(userName, [64]), (itemName, [64])]
           provide_label := [(scoreName, [64])] }
       testIter :=
         { batch_size := 64, data := []
           provide_data := [(userName, [64]), (itemName, [64])]
           provide_label := [(scoreName, [64])] }
       speedometer_frequent := 312 } : TrainSetup).trainIter.batch_size = 64 ∧
    ({ symbol := plain_net 1
       num_epoch := 1
       learning_rate := 0
       wd := 1 / 10000
       momentum := 9 / 10
       trainIter :=
         { batch_size := 64, data := []
           provide_data := [(userName, [64]), (itemName, [64])]
           provide_label := [(scoreName, [64])] }
       testIter :=
         { batch_size := 64, data := []
           provide_data := [(userName, [64]), (itemName, [64])]
           provide_label := [(scoreName, [64])] }
       speedometer_frequent := 312 } : TrainSetup).testIter.batch_size = 64 :=
  train_ignores_batch_size [] [] (plain_net 1) 5 7 1 0 _ rfl

/-- A line whose first two fields (of four) are valid integers; this is
all `max_id` needs (it never reads the rating). -/
def WellIdLine (line : String) : Prop :=
  (lineTokens line).length = 4 →
    (pyInt? ((lineTokens line).getD 0 "")).isSome ∧
    (pyInt? ((lineTokens line).getD 1 "")).isSome

instance WellFormedLine.dec (line : String) : Decidable (WellFormedLine line) := by
  unfold WellFormedLine
  infer_instance

instance WellIdLine.dec (line : String) : Decidable (WellIdLine line) := by
  unfold WellIdLine
  infer_instance

/-- A list of length four is literally a four-element list. -/
theorem List.length_four {α} {t : List α} (h : t.length = 4) :
    ∃ a b c d, t = [a, b, c, d] := by
  rcases t with _ | ⟨a, t⟩
  · simp at h
  rcases t with _ | ⟨b, t⟩
  · simp at h
  rcases t with _ | ⟨c, t⟩
  · simp at h
  rcases t with _ | ⟨d, t⟩
  · simp at h
  rcases t with _ | ⟨e, t⟩
  · exact ⟨a, b, c, d, rfl⟩
  · simp at h

/-- On a file of well-formed lines the loading loop succeeds and yields
exactly the records described by `lineRecord?`, in file order. -/
theorem loadData_ok (lines : List String) (h : ∀ l ∈ lines, WellFormedLine l) :
    loadData lines = .ok (lines.filterMap lineRecord?) := by
  induction lines with
  | nil => rfl
  | cons line rest ih =>
    have hline := h line (by simp)
    have hrest := ih (fun l hl => h l (by simp [hl]))
    rcases h4 : lineTokens line with _ | ⟨a, _ | ⟨b, _ | ⟨c, _ | ⟨d, _ | ⟨e, r⟩⟩⟩⟩⟩
    · simp [loadData, lineRecord?, h4, hrest]
    · simp [loadData, lineRecord?, h4, hrest]
    · simp [loadData, lineRecord?, h4, hrest]
    · simp [loadData, lineRecord?, h4, hrest]
    · unfold WellFormedLine at hline
      rw [h4] at hline
      obtain ⟨hu, hi, hr⟩ := hline rfl
      obtain ⟨u, hu⟩ := Option.isSome_iff_exists.mp hu
      obtain ⟨i, hi⟩ := Option.isSome_iff_exists.mp hi
      obtain ⟨r0, hr⟩ := Option.isSome_iff_exists.mp hr
      simp only [List.getD_cons_zero, List.getD_cons_succ] at hu hi hr
      simp [loadData, lineRecord?, h4, hu, hi, hr, hrest, Except.map]
    · simp [loadData, lineRecord?, h4, hrest]

/-- If some line breaks well-formedness (four fields, unparseable
numbers), the loading loop raises `ValueError`. -/
theorem loadData_err (lines : List String) (h : ∃ l ∈ lines, ¬ WellFormedLine l) :
    loadData lines = .error .ValueError := by
  induction lines with
  | nil => simp at h
  | cons line rest ih =>
    obtain ⟨l, hl, hnw⟩ := h
    rcases List.mem_cons.mp hl with rfl | hl2
    · unfold WellFormedLine at hnw
      push_neg at hnw
      obtain ⟨h4, hbad⟩ := hnw
      obtain ⟨a, b, c, d, habcd⟩ := List.length_four h4
      rw [habcd] at hbad
      cases hu : pyInt? a with
      | none => simp [loadData, habcd, hu]
      | some u =>
        cases hi : pyInt? b with
        | none => simp [loadData, habcd, hu, hi]
        | some i =>
          cases hr : pyFloat? c with
          | none => simp [loadData, habcd, hu, hi, hr]
          | some r0 =>
            exfalso
            simp only [List.getD_cons_zero, List.getD_cons_succ] at hbad
            exact hbad (by simp [hu]) (by simp [hi]) (by simp [hr])
    · have hrest := ih ⟨l, hl2, hnw⟩
      rcases h4 : lineTokens line with _ | ⟨a, _ | ⟨b, _ | ⟨c, _ | ⟨d, _ | ⟨e, r⟩⟩⟩⟩⟩
      · simp [loadData, h4, hrest]
      · simp [loadData, h4, hrest]
      · simp [loadData, h4, hrest]
      · simp [loadData, h4, hrest]
      · cases hu : pyInt? a <;> cases hi : pyInt? b <;> cases hr : pyFloat? c <;>
          simp [loadData, h4, hu, hi, hr, hrest, Except.map]
      · simp [loadData, h4, hrest]

/-- C3: on any file whose four-field lines carry numeric fields,
`DataIter.__init__` stores, in file order, one `(user_id, item_id,
rating)` triple per line splitting on tab into exactly four fields,
with `int` of the first two fields, `float` of the third, and the
timestamp discarded. -/
theorem DataIter_init_parses (lines : List String) (bs : Nat)
    (h : ∀ l ∈ lines, WellFormedLine l) :
    DataIter.init lines bs = .ok
      { batch_size := bs
        data := lines.filterMap lineRecord?
        provide_data := [(userName, [bs]), (itemName, [bs])]
        provide_label := [(scoreName, [bs])] } := by
  unfold DataIter.init
  rw [loadData_ok lines h]
  rfl

/-- C3 witness: a concrete file with one well-formed record line and one
line that does not split into four fields. -/
theorem DataIter_init_parses_witness :
    DataIter.init ["1\t33\t3.5\t881250949", "junk line"] 2 = .ok
      { batch_size := 2
        data := ["1\t33\t3.5\t881250949", "junk line"].filterMap lineRecord?
        provide_data := [(userName, [2]), (itemName, [2])]
        provide_label := [(scoreName, [2])] } :=
  DataIter_init_parses ["1\t33\t3.5\t881250949", "junk line"] 2 (by decide)

/-- C2, counterexample: the line below is not a valid record (its second
field is not an integer), yet the loader does not skip it: `__init__`
raises `ValueError` instead of continuing without error. -/
theorem loader_raises_on_bad_field :
    lineRecord? "1\ta\t3.0\t881250949" = none ∧
    DataIter.init ["1\ta\t3.0\t881250949"] 1 = .error .ValueError := by
  constructor
  · rfl
  · rfl

/-- C2 (amended): only lines that do not split on tab into exactly four
fields are silently skipped (each remaining line contributing exactly
one tuple); a four-field line whose first two fields are not valid
integers or whose third field is not a valid float instead raises
`ValueError`. -/
theorem loader_skips_or_raises (lines : List String) (bs : Nat) :
    ((∀ l ∈ lines, WellFormedLine l) →
      DataIter.init lines bs = .ok
        { batch_size := bs
          data := lines.filterMap lineRecord?
          provide_data := [(userName, [bs]), (itemName, [bs])]
          provide_label := [(scoreName, [bs])] }) ∧
    ((∃ l ∈ lines, ¬ WellFormedLine l) →
      DataIter.init lines bs = .error .ValueError) := by
  constructor
  · exact fun h => DataIter_init_parses lines bs h
  · intro h
    unfold DataIter.init
    rw [loadData_err lines h]
    rfl

/-- C2 witness: the skipping branch on a mixed good file and the raising
branch on a file with a four-field non-numeric line. -/
theorem loader_skips_or_raises_witness :
    DataIter.init ["7\t9\t4.0\t0", "short"] 3 = .ok
      { batch_size := 3
        data := ["7\t9\t4.0\t0", "short"].filterMap lineRecord?
        provide_data := [(userName, [3]), (itemName, [3])]
        provide_label := [(scoreName, [3])] } ∧
    DataIter.init ["7\t9\tx\t0"] 3 = .error .ValueError :=
  ⟨(loader_skips_or_raises ["7\t9\t4.0\t0", "short"] 3).1 (by decide),
   (loader_skips_or_raises ["7\t9\tx\t0"] 3).2 ⟨"7\t9\tx\t0", by decide, by decide⟩⟩

/-- Generalised accumulator invariant of the `max_id` loop. -/
theorem maxIdGo_ok (lines : List String) :
    ∀ mu mi : Int, (∀ l ∈ lines, WellIdLine l) →
      maxIdGo lines mu mi =
        .ok ((userIds lines).foldl max mu + 1, (itemIds lines).foldl max mi + 1) := by
  induction lines with
  | nil => intro mu mi _; rfl
  | cons line rest ih =>
    intro mu mi h
    have hline := h line (by simp)
    have hrest : ∀ l ∈ rest, WellIdLine l := fun l hl => h l (List.mem_cons_of_mem _ hl)
    rcases h4 : lineTokens line with _ | ⟨a, _ | ⟨b, _ | ⟨c, _ | ⟨d, _ | ⟨e, r⟩⟩⟩⟩⟩
    · simp [maxIdGo, userIds, itemIds, h4, ih _ _ hrest]
    · simp [maxIdGo, userIds, itemIds, h4, ih _ _ hrest]
    · simp [maxIdGo, userIds, itemIds, h4, ih _ _ hrest]
    · simp [maxIdGo, userIds, itemIds, h4, ih _ _ hrest]
    · unfold WellIdLine at hline
      rw [h4] at hline
      obtain ⟨hu, hi⟩ := hline rfl
      obtain ⟨u, hu⟩ := Option.isSome_iff_exists.mp hu
      obtain ⟨i, hi⟩ := Option.isSome_iff_exists.mp hi
      simp only [List.getD_cons_zero, List.getD_cons_succ] at hu hi
      simp [maxIdGo, userIds, itemIds, h4, hu, hi, ih _ _ hrest]
    · simp [maxIdGo, userIds, itemIds, h4, ih _ _ hrest]

/-- C10, counterexample: on a four-field line with negative ids the
code returns `(1, 1)` (the accumulators start at 0), not
`(1 + max user id, 1 + max item id) = (-4, -2)`. -/
theorem max_id_negative_ids :
    max_id ["-5\t-3\t1\t9"] = .ok (1, 1) ∧
    ((1 : Int), (1 : Int)) ≠ ((-5 : Int) + 1, (-3 : Int) + 1) := by
  exact ⟨rfl, by decide⟩

/-- C10 (amended): when every four-field line has integer first two
fields, `max_id` returns one plus the maximum of 0 and the user ids,
paired with one plus the maximum of 0 and the item ids, the maxima
ranging over the four-field lines; with no four-field line it returns
`(1, 1)` (a four-field line with unparseable ids raises instead). -/
theorem max_id_clamped (lines : List String) (h : ∀ l ∈ lines, WellIdLine l) :
    max_id lines =
      .ok ((userIds lines).foldl max 0 + 1, (itemIds lines).foldl max 0 + 1) ∧
    ((∀ l ∈ lines, (lineTokens l).length ≠ 4) → max_id lines = .ok (1, 1)) := by
  constructor
  · exact maxIdGo_ok lines 0 0 h
  · intro hno
    have hu : userIds lines = [] := by
      apply List.filterMap_eq_nil_iff.mpr
      intro l hl
      simp [hno l hl]
    have hi : itemIds lines = [] := by
      apply List.filterMap_eq_nil_iff.mpr
      intro l hl
      simp [hno l hl]
    have := maxIdGo_ok lines 0 0 h
    rw [hu, hi] at this
    simpa using this

/-- C10 witness: a mixed file with one skipped line. -/
theorem max_id_clamped_witness :
    max_id ["5\t7\t3.0\t0", "junk", "2\t9\t1.0\t0"] =
      .ok ((userIds ["5\t7\t3.0\t0", "junk", "2\t9\t1.0\t0"]).foldl max 0 + 1,
           (itemIds ["5\t7\t3.0\t0", "junk", "2\t9\t1.0\t0"]).foldl max 0 + 1) ∧
    ((∀ l ∈ ["5\t7\t3.0\t0", "junk", "2\t9\t1.0\t0"], (lineTokens l).length ≠ 4) →
      max_id ["5\t7\t3.0\t0", "junk", "2\t9\t1.0\t0"] = .ok (1, 1)) :=
  max_id_clamped ["5\t7\t3.0\t0", "junk", "2\t9\t1.0\t0"] (by decide)

/-- The `RMSE` loop computes the sum of squared differences over the
label positions together with the count, when `pred` is long enough. -/
theorem rmseLoop_ok (label : List ℚ) :
    ∀ flat : List ℚ, label.length ≤ flat.length →
      rmseLoop label flat =
        .ok (∑ i ∈ Finset.range label.length,
              (label.getD i 0 - flat.getD i 0) * (label.getD i 0 - flat.getD i 0),
             (label.length : ℚ)) := by
  induction label with
  | nil => intro flat _; simp [rmseLoop]
  | cons l ls ih =>
    intro flat h
    cases flat with
    | nil => simp at h
    | cons p ps =>
      have h2 : ls.length ≤ ps.length := by simpa using h
      simp [rmseLoop, ih ps h2, Except.map, Finset.sum_range_succ',
            List.getD_cons_zero, List.getD_cons_succ]

/-- C4: on a non-empty label list and a `pred` whose flattening is at
least as long, `RMSE` returns the square root of the mean of the
squared differences `(label[i] - pred[i])^2`, i.e. the root-mean-square
error. -/
theorem RMSE_is_rms (label : List ℚ) (pred : List (List ℚ))
    (h1 : label ≠ []) (h2 : label.length ≤ pred.flatten.length) :
    RMSE label pred =
      .ok (Real.sqrt ((∑ i ∈ Finset.range label.length,
        ((label.getD i 0 : ℝ) - (pred.flatten.getD i 0 : ℝ)) ^ 2) / (label.length : ℝ))) := by
  have hn : ((label.length : ℚ)) ≠ 0 := by
    simpa [List.length_eq_zero] using h1
  unfold RMSE
  rw [rmseLoop_ok label pred.flatten h2]
  simp only [hn, if_false, reduceIte]
  congr 1
  rw [show ((((∑ i ∈ Finset.range label.length,
        (label.getD i 0 - pred.flatten.getD i 0) * (label.getD i 0 - pred.flatten.getD i 0)) /
        (label.length : ℚ)) : ℚ) : ℝ) =
      (∑ i ∈ Finset.range label.length,
        ((label.getD i 0 : ℝ) - (pred.flatten.getD i 0 : ℝ)) ^ 2) / (label.length : ℝ) from by
    push_cast
    congr 1
    exact Finset.sum_congr rfl (fun i _ => by ring)]

/-- C4 witness at a concrete label/prediction pair. -/
theorem RMSE_is_rms_witness :
    RMSE [1, 3] [[2], [5]] =
      .ok (Real.sqrt ((∑ i ∈ Finset.range ([1, 3] : List ℚ).length,
        ((([1, 3] : List ℚ).getD i 0 : ℝ) -
          ((([[2], [5]] : List (List ℚ)).flatten.getD i 0 : ℝ))) ^ 2) /
        (([1, 3] : List ℚ).length : ℝ))) :=
  RMSE_is_rms [1, 3] [[2], [5]] (by decide) (by decide)

/-- C9: `RMSE` on an empty label list always reaches the division with
`n = 0` and raises `ZeroDivisionError`; with a non-empty label (and
enough predictions for the loop itself not to raise) the division is
executed without error and a result is returned. -/
theorem RMSE_empty_label_divides_by_zero :
    (∀ pred : List (List ℚ), RMSE [] pred = .error .ZeroDivisionError) ∧
    (∀ (label : List ℚ) (pred : List (List ℚ)), label ≠ [] →
      label.length ≤ pred.flatten.length → ∃ r, RMSE label pred = .ok r) := by
  constructor
  · intro pred
    unfold RMSE
    simp [rmseLoop]
  · intro label pred h1 h2
    have hn : ((label.length : ℚ)) ≠ 0 := by
      simpa [List.length_eq_zero] using h1
    refine ⟨Real.sqrt ((((∑ i ∈ Finset.range label.length,
        (label.getD i 0 - pred.flatten.getD i 0) *
        (label.getD i 0 - pred.flatten.getD i 0)) / (label.length : ℚ) : ℚ) : ℝ)), ?_⟩
    unfold RMSE
    rw [rmseLoop_ok label pred.flatten h2]
    simp only [hn, if_false, reduceIte]

/-- C9 witness: the empty-label branch and a successful branch. -/
theorem RMSE_empty_label_divides_by_zero_witness :
    RMSE [] [[5]] = .error .ZeroDivisionError ∧
    ∃ r, RMSE [2] [[3]] = .ok r :=
  ⟨RMSE_empty_label_divides_by_zero.1 [[5]],
   RMSE_empty_label_divides_by_zero.2 [2] [[3]] (by decide) (by decide)⟩

/-- Replacing the `m`-th element (which is `b`) by `a` while holding on
to `b` at the front is a permutation of putting `a` at the front. -/
theorem cons_set_perm {α} :
    ∀ (t : List α) (m : Nat) (a b : α), t[m]? = some b →
      (b :: t.set m a).Perm (a :: t) := by
  intro t
  induction t with
  | nil => intro m a b h; simp at h
  | cons y t2 ih =>
    intro m a b h
    cases m with
    | zero =>
      have hb : y = b := by simpa using h
      subst hb
      simpa using List.Perm.swap a y t2
    | succ m2 =>
      simp only [List.getElem?_cons_succ] at h
      have p1 : (b :: y :: t2.set m2 a).Perm (y :: b :: t2.set m2 a) :=
        List.Perm.swap y b _
      have p2 : (y :: b :: t2.set m2 a).Perm (y :: a :: t2) :=
        (ih m2 a b h).cons y
      have p3 : (y :: a :: t2).Perm (a :: y :: t2) := List.Perm.swap a y t2
      simpa using (p1.trans p2).trans p3

/-- A positional swap is a permutation. -/
theorem listSwap_perm {α} :
    ∀ (l : List α) (i j : Nat), (listSwap l i j).Perm l := by
  intro l
  induction l with
  | nil => intro i j; simp [listSwap]
  | cons x t ih =>
    intro i j
    cases i with
    | zero =>
      cases j with
      | zero => simp [listSwap]
      | succ m =>
        cases h : t[m]? with
        | none => simp [listSwap, h]
        | some b => simpa [listSwap, h] using cons_set_perm t m x b h
    | succ m =>
      cases j with
      | zero =>
        cases h : t[m]? with
        | none => simp [listSwap, h]
        | some a => simpa [listSwap, h] using cons_set_perm t m x a h
      | succ n =>
        cases h1 : t[m]? with
        | none => simp [listSwap, h1]
        | some a =>
          cases h2 : t[n]? with
          | none => simp [listSwap, h1, h2]
          | some b =>
            have hp := ih m n
            simp only [listSwap, h1, h2] at hp
            simpa [listSwap, h1, h2] using hp.cons x

/-- Every stage of the shuffle loop permutes the list. -/
theorem shuffleGo_perm {α} (rand : Nat → Nat) :
    ∀ (n : Nat) (l : List α), (shuffleGo rand n l).Perm l := by
  intro n
  induction n with
  | zero => intro l; simp [shuffleGo]
  | succ i ih => intro l; exact (ih _).trans (listSwap_perm _ _ _)

/-- C5: `DataIter.reset` shuffles `self.data` in place: the new `data`
is a permutation of the old (same multiset of triples), and
`batch_size`, `provide_data` and `provide_label` are untouched, for any
stream of random draws. -/
theorem reset_permutes_data_only (rand : Nat → Nat) (st : DataIter) :
    (DataIter.reset rand st).data.Perm st.data ∧
    (DataIter.reset rand st).batch_size = st.batch_size ∧
    (DataIter.reset rand st).provide_data = st.provide_data ∧
    (DataIter.reset rand st).provide_label = st.provide_label :=
  ⟨shuffleGo_perm rand _ st.data, rfl, rfl, rfl⟩

/-- Index arithmetic: a batch index below `len / bs` leaves room for a
full batch. -/
theorem batch_fits {k n bs : Nat} (h : k < n / bs) : k * bs + bs ≤ n := by
  have h1 : (k + 1) * bs ≤ (n / bs) * bs := Nat.mul_le_mul_right bs h
  have h2 : (n / bs) * bs ≤ n := Nat.div_mul_le_self n bs
  calc k * bs + bs = (k + 1) * bs := by ring
  _ ≤ (n / bs) * bs := h1
  _ ≤ n := h2

/-- A contiguous slice, read off with defaulted indexing, is the
corresponding `drop`/`take` slice. -/
theorem slice_eq_range_map {α} (l : List α) (d : α) (m bs : Nat)
    (h : m + bs ≤ l.length) :
    (l.drop m).take bs = (List.range bs).map (fun i => l.getD (m + i) d) := by
  apply List.ext_getElem
  · simp only [List.length_take, List.length_drop, List.length_map, List.length_range]
    omega
  · intro i h1 h2
    have hi : i < bs := by
      simpa using h2
    have him : m + i < l.length := by omega
    rw [List.getElem_take, List.getElem_drop, List.getElem_map, List.getElem_range,
        List.getD_eq_getElem l d him]

/-- C1: one pass of `DataIter.__iter__` yields exactly
`len(data) / batch_size` batches; the `k`-th batch is built from the
dataset slice at positions `k*batch_size .. k*batch_size + batch_size - 1`
in order (users, then items, then scores), and that slice has exactly
`batch_size` elements; trailing records beyond the last full batch are
never yielded. -/
theorem iter_yields_floor_batches (st : DataIter) (k : Nat)
    (hbs : 0 < st.batch_size) (hk : k < st.data.length / st.batch_size) :
    st.iterBatches.length = st.data.length / st.batch_size ∧
    st.iterBatches[k]? = some
      { data_names := [userName, itemName]
        data := [((st.data.drop (k * st.batch_size)).take st.batch_size).map (fun t => (t.1 : ℚ)),
                 ((st.data.drop (k * st.batch_size)).take st.batch_size).map (fun t => (t.2.1 : ℚ))]
        label_names := [scoreName]
        label := [((st.data.drop (k * st.batch_size)).take st.batch_size).map (fun t => t.2.2)] } ∧
    ((st.data.drop (k * st.batch_size)).take st.batch_size).length = st.batch_size := by
  have hle : k * st.batch_size + st.batch_size ≤ st.data.length := batch_fits hk
  refine ⟨by simp [DataIter.iterBatches], ?_, ?_⟩
  · rw [DataIter.iterBatches, List.getElem?_map, List.getElem?_range hk]
    simp only [Option.map]
    rw [DataIter.nthBatch]
    simp only [slice_eq_range_map st.data (0, 0, 0) (k * st.batch_size) st.batch_size hle,
               List.map_map, Function.comp_def]
  · simp only [List.length_take, List.length_drop]
    omega

/-- C1 witness: three records, batch size 2, first (and only) batch. -/
theorem iter_yields_floor_batches_witness :
    ({ batch_size := 2, data := [(1, 2, 3), (4, 5, 6), (7, 8, 9)]
       provide_data := [], provide_label := [] } : DataIter).iterBatches.length =
      ([(1, 2, 3), (4, 5, 6), (7, 8, 9)] : List (Int × Int × ℚ)).length / 2 ∧
    ({ batch_size := 2, data := [(1, 2, 3), (4, 5, 6), (7, 8, 9)]
       provide_data := [], provide_label := [] } : DataIter).iterBatches[0]? = some
      { data_names := [userName, itemName]
        data := [((([(1, 2, 3), (4, 5, 6), (7, 8, 9)] : List (Int × Int × ℚ)).drop (0 * 2)).take 2).map
                   (fun t => (t.1 : ℚ)),
                 ((([(1, 2, 3), (4, 5, 6), (7, 8, 9)] : List (Int × Int × ℚ)).drop (0 * 2)).take 2).map
                   (fun t => (t.2.1 : ℚ))]
        label_names := [scoreName]
        label := [((([(1, 2, 3), (4, 5, 6), (7, 8, 9)] : List (Int × Int × ℚ)).drop (0 * 2)).take 2).map
                    (fun t => t.2.2)] } ∧
    ((([(1, 2, 3), (4, 5, 6), (7, 8, 9)] : List (Int × Int × ℚ)).drop (0 * 2)).take 2).length = 2 :=
  iter_yields_floor_batches
    { batch_size := 2, data := [(1, 2, 3), (4, 5, 6), (7, 8, 9)]
      provide_data := [], provide_label := [] } 0 (by decide) (by decide)
